import Mathlib

/-!
Shallow embedding of `src/tools/onnx-analyzer/analyze_model.py` from the
`mosidas/face-recognition` repository, together with theorems settling the
frozen claims about it.

Modelling conventions:
* Python values appearing in heterogeneous shape lists (ints and strings)
  are modelled by `PyVal`.
* An ONNX `Dimension` protobuf message is a oneof of `dim_value` (int64)
  and `dim_param` (string); `DimDecl` models it, and the accessors
  `dimValue` / `dimParam` return the proto3 defaults (`0`, `""`) when the
  corresponding field is not the one set, exactly as the Python bindings do.
  Python truthiness tests `if dim.dim_value:` / `elif dim.dim_param:`
  become `≠ 0` / `≠ ""`.
* The fallible library calls (`onnx.load`, `ort.InferenceSession`,
  `session.run`) and the random generator `np.random.rand` are supplied by
  an environment `Env`; float tensors are abstracted to flat lists of
  rationals (the claims are about control flow and the normalization
  formulas, not float rounding).
* Console output and library-call attempts are recorded as an ordered
  trace of `Event`s; each `print` statement becomes one `Line`
  constructor carrying the data the claims talk about (float-valued
  statistics are value-free markers).
-/

namespace OnnxAnalyzer

/-- A Python value that can appear in a shape list: an int or a string. -/
inductive PyVal where
  | int (n : Int)
  | str (s : String)
deriving DecidableEq, Repr

/-- The `dim` oneof of an ONNX tensor shape: a fixed `dim_value`, a symbolic
`dim_param`, or neither field set. -/
inductive DimDecl where
  | value (n : Int)
  | param (s : String)
  | unset
deriving DecidableEq, Repr

/-- `dim.dim_value` as the Python protobuf binding reports it: the declared
integer when `dim_value` is the set oneof member, else the default `0`. -/
def DimDecl.dimValue : DimDecl → Int
  | .value n => n
  | _ => 0

/-- `dim.dim_param` as the Python protobuf binding reports it: the declared
name when `dim_param` is the set oneof member, else the default `""`. -/
def DimDecl.dimParam : DimDecl → String
  | .param s => s
  | _ => ""

/-- The body of the static-shape loop (`analyze_model.py` lines 43-49 and
63-69): `if dim.dim_value: shape.append(dim.dim_value) elif dim.dim_param:
shape.append(dim.dim_param) else: shape.append("unknown")`. -/
def dimEntry (d : DimDecl) : PyVal :=
  if d.dimValue ≠ 0 then PyVal.int d.dimValue
  else if d.dimParam ≠ "" then PyVal.str d.dimParam
  else PyVal.str "unknown"

/-- The static-shape accumulation loop (lines 42-49 / 62-69): starts from
`shape = []` and appends one entry per declared dimension, in order. -/
def deriveShape (dims : List DimDecl) : List PyVal :=
  dims.foldl (fun shape dim => shape ++ [dimEntry dim]) []

/-- The body of the test-shape loop (lines 100-104): a dynamic dimension
(`isinstance(dim, str) or dim == -1`) becomes `1`; anything else is kept. -/
def dynamicToOne : PyVal → Int
  | .str _ => 1
  | .int n => if n = -1 then 1 else n

/-- The test-shape accumulation loop (lines 99-104): starts from
`test_shape = []` and appends per runtime dimension, in order. -/
def makeTestShape (inputShape : List PyVal) : List Int :=
  inputShape.foldl (fun ts dim => ts ++ [dynamicToOne dim]) []

/-- The tensor-layout heuristic (lines 119-125): only for a 4-dimensional
test shape; `some` label printed, `none` when the guard fails. -/
def tensorFormat (testShape : List Int) : Option String :=
  if testShape.length = 4 then
    if testShape.getD 1 0 = 3 then some "NCHW"
    else if testShape.getD 3 0 = 3 then some "NHWC"
    else some "Unknown"
  else none

/-- A declared graph input/output tensor (`model.graph.input[i]`): name,
stringified type, and the declared shape dimensions. -/
structure TensorInfo where
  name : String
  typeStr : String
  dims : List DimDecl
deriving DecidableEq, Repr

/-- The fields of a successfully loaded ONNX model that the script reads. -/
structure ModelData where
  producerName : String
  producerVersion : String
  modelVersion : Int
  docString : String
  inputs : List TensorInfo
  outputs : List TensorInfo
deriving DecidableEq, Repr

/-- A runtime input/output description from `session.get_inputs()` /
`session.get_outputs()`: name, shape (ints or symbolic-name strings), type. -/
structure RuntimeMeta where
  name : String
  shape : List PyVal
  typeStr : String
deriving DecidableEq, Repr

/-- The inference session as far as the script consults it. -/
structure SessionData where
  inputs : List RuntimeMeta
  outputs : List RuntimeMeta
deriving DecidableEq, Repr

/-- The part of a successful `session.run` result the script prints with
discrete values: `result[0].shape` and `result[0].dtype` (the float
statistics min/max/mean/std are abstracted away). -/
structure RunStats where
  outShape : List Int
  dtype : String
deriving DecidableEq, Repr

/-- The environment supplying the outcomes of every external call:
`os.path.exists`, `onnx.load`, `ort.InferenceSession`, `np.random.rand`
(indexed by the requested shape and the call site number within the
analysis), and `session.run` as a function of the input tensor. -/
structure Env where
  pathExists : Bool
  loadResult : Except String ModelData
  sessionResult : Except String SessionData
  rand : List Int → Nat → List ℚ
  runResult : List ℚ → Except String RunStats

/-- One printed console line, abstracted to the data the claims mention. -/
inductive Line where
  | analyzingHeader (path : String)
  | errorNotFound (path : String)
  | producerLine (s : String)
  | versionLine (s : String)
  | modelVersionLine (n : Int)
  | docStringLine (s : String)
  | blank
  | inputInfoHeader
  | outputInfoHeader
  | tensorIndex (isInput : Bool) (i : Nat)
  | tensorName (s : String)
  | tensorType (s : String)
  | tensorShape (shape : List PyVal)
  | sessionInfoHeader
  | runtimeInputHeader
  | runtimeOutputHeader
  | runtimeName (s : String)
  | runtimeShape (shape : List PyVal)
  | runtimeType (s : String)
  | testInferenceHeader
  | testInputShape (shape : List Int)
  | outputShapeLine (shape : List Int)
  | outputDtypeLine (s : String)
  | outputRangeLine
  | outputMeanLine
  | outputStdLine
  | tensorFormatLine (fmt : String)
  | normEstimationHeader
  | probeSuccess (probe : String)
  | probeFailure (probe : String) (err : String)
  | errorCaught (err : String)
  | progressBanner (i : Nat) (n : Nat) (base : String)
  | successBanner
  | failureBanner
  | separatorLine
deriving DecidableEq, Repr

/-- A step of the observable trace: a printed line or a library call. -/
inductive Event where
  | out (l : Line)
  | callLoad
  | callCreateSession
  | callRun
deriving DecidableEq, Repr

/-- `true` exactly on the library-call events (model load, session
construction, inference). -/
def isLibraryCall : Event → Bool
  | Event.out _ => false
  | _ => true

/-- The per-tensor body of the static input/output loops (lines 36-51 and
56-71): index line, name, type, then the `Shape:` line only when the
declared dimension list is non-empty (Python truthiness of `shape.dim`),
then a blank line. -/
def tensorEvents1 (isInput : Bool) (i : Nat) (t : TensorInfo) : List Event :=
  [Event.out (Line.tensorIndex isInput i), Event.out (Line.tensorName t.name),
   Event.out (Line.tensorType t.typeStr)] ++
  (if t.dims ≠ [] then [Event.out (Line.tensorShape (deriveShape t.dims))] else []) ++
  [Event.out Line.blank]

/-- The whole static input (or output) enumeration loop. -/
def tensorEvents (isInput : Bool) (ts : List TensorInfo) : List Event :=
  (ts.enum.map (fun p => tensorEvents1 isInput p.1 p.2)).flatten

/-- Lines 27-31: producer metadata block. -/
def modelInfoEvents (m : ModelData) : List Event :=
  [Event.out (Line.producerLine m.producerName),
   Event.out (Line.versionLine m.producerVersion),
   Event.out (Line.modelVersionLine m.modelVersion),
   Event.out (Line.docStringLine m.docString),
   Event.out Line.blank]

/-- Lines 80-83 / 88-91: one runtime input/output metadata block. -/
def runtimeMetaEvents (m : RuntimeMeta) : List Event :=
  [Event.out (Line.runtimeName m.name), Event.out (Line.runtimeShape m.shape),
   Event.out (Line.runtimeType m.typeStr), Event.out Line.blank]

/-- Lines 112-116: the five statistic prints after the main inference. -/
def statEvents (st : RunStats) : List Event :=
  [Event.out (Line.outputShapeLine st.outShape),
   Event.out (Line.outputDtypeLine st.dtype),
   Event.out Line.outputRangeLine, Event.out Line.outputMeanLine,
   Event.out Line.outputStdLine]

/-- The `normalized_inputs` dict literal (lines 131-135), in insertion
order: each probe draws a fresh uniform sample over the test shape and
remaps it with the stated elementwise formula. -/
def normalizedInputs (env : Env) (testShape : List Int) : List (String × List ℚ) :=
  [("0-1 normalization", env.rand testShape 1),
   ("[-1,1] normalization", (env.rand testShape 2).map (fun x => (x - 1/2) * 2)),
   ("ImageNet normalization",
     (env.rand testShape 3).map (fun x => (x - 97/200) / (229/1000)))]

/-- The per-probe body (lines 137-142): attempt the inference, catch a
failure of this probe individually, and print one report line either way. -/
def probeReport (env : Env) (p : String × List ℚ) : List Event :=
  Event.callRun ::
  (match env.runResult p.2 with
   | Except.ok _ => [Event.out (Line.probeSuccess p.1)]
   | Except.error msg => [Event.out (Line.probeFailure p.1 msg)])

/-- The probe loop over the three normalized inputs. -/
def probeEvents (env : Env) (testShape : List Int) : List Event :=
  ((normalizedInputs env testShape).map (probeReport env)).flatten

/-- The body of the `try:` block (lines 22-144): the trace it produces and
either `ok` (reaching `return True`) or the first uncaught exception. -/
def tryBody (env : Env) : List Event × Except String Unit :=
  match env.loadResult with
  | Except.error msg => ([Event.callLoad], Except.error msg)
  | Except.ok model =>
    let e1 : List Event :=
      [Event.callLoad] ++ modelInfoEvents model ++
      [Event.out Line.inputInfoHeader] ++ tensorEvents true model.inputs ++
      [Event.out Line.outputInfoHeader] ++ tensorEvents false model.outputs ++
      [Event.out Line.sessionInfoHeader, Event.callCreateSession]
    match env.sessionResult with
    | Except.error msg => (e1, Except.error msg)
    | Except.ok session =>
      let e2 : List Event := e1 ++
        [Event.out Line.runtimeInputHeader] ++
        (session.inputs.map runtimeMetaEvents).flatten ++
        [Event.out Line.runtimeOutputHeader] ++
        (session.outputs.map runtimeMetaEvents).flatten ++
        [Event.out Line.testInferenceHeader]
      match session.inputs with
      | [] => (e2, Except.error "list index out of range")
      | first :: _ =>
        let testShape := makeTestShape first.shape
        let e4 : List Event :=
          e2 ++ [Event.out (Line.testInputShape testShape), Event.callRun]
        match env.runResult (env.rand testShape 0) with
        | Except.error msg => (e4, Except.error msg)
        | Except.ok st =>
          let e5 : List Event := e4 ++ statEvents st ++
            (match tensorFormat testShape with
             | some fmt => [Event.out (Line.tensorFormatLine fmt)]
             | none => []) ++
            [Event.out Line.normEstimationHeader]
          if testShape.length = 4 then
            (e5 ++ probeEvents env testShape, Except.ok ())
          else (e5, Except.ok ())

/-- `analyze_onnx_model` (lines 14-148): header line, existence check, then
the guarded body with the catch-all `except` printing `ERROR: {e}` and
returning `False`; returns the trace and the boolean outcome. -/
def analyze_onnx_model (path : String) (env : Env) : List Event × Bool :=
  let hdr := [Event.out (Line.analyzingHeader path)]
  if env.pathExists then
    match tryBody env with
    | (evs, Except.ok _) => (hdr ++ evs, true)
    | (evs, Except.error msg) =>
        (hdr ++ evs ++ [Event.out (Line.errorCaught msg)], false)
  else
    (hdr ++ [Event.out (Line.errorNotFound path)], false)

/-- `os.path.basename` for POSIX paths, as used in the progress banner. -/
def basename (p : String) : String := (p.splitOn "/").getLastD ""

/-- The multi-model loop body (lines 162-171) at 0-based position `i` of
`n` models: progress banner, the analysis, a success or failure banner per
the boolean result, and the separator when this is not the last model. -/
def mainBlock (n : Nat) (p : Nat × (String × Env)) : List Event :=
  [Event.out (Line.progressBanner (p.1 + 1) n (basename p.2.1))] ++
  (let r := analyze_onnx_model p.2.1 p.2.2
   r.1 ++ [Event.out (if r.2 then Line.successBanner else Line.failureBanner)]) ++
  (if p.1 < n - 1 then [Event.out Line.separatorLine] else [])

/-- `main` (lines 150-171): with exactly one path, a bare analysis; with
several, the enumerated banner loop. Each path comes with the environment
its analysis runs in. -/
def main_run (models : List (String × Env)) : List Event :=
  match models with
  | [m] => (analyze_onnx_model m.1 m.2).1
  | _ => (models.enum.map (mainBlock models.length)).flatten

/-- Written from the claim's words for C7, not from the source: per model
in input order, a 1-based progress banner, the inspector's output, a
success or failure banner per the inspector's boolean result, and a
separator exactly when another model follows. -/
def specMainBlocks (n : Nat) : Nat → List (String × Env) → List Event
  | _, [] => []
  | i, m :: rest =>
    [Event.out (Line.progressBanner (i + 1) n (basename m.1))] ++
    (analyze_onnx_model m.1 m.2).1 ++
    [Event.out (if (analyze_onnx_model m.1 m.2).2 then Line.successBanner
                else Line.failureBanner)] ++
    (if rest.isEmpty then [] else [Event.out Line.separatorLine]) ++
    specMainBlocks n (i + 1) rest

/-! ### Helper lemmas -/

/-- An append-accumulating `foldl` is `map`: the general accumulator form. -/
lemma foldl_append_map {α β : Type} (f : α → β) (l : List α) :
    ∀ acc : List β, l.foldl (fun s d => s ++ [f d]) acc = acc ++ l.map f := by
  induction l with
  | nil => intro acc; simp
  | cons x xs ih => intro acc; simp [List.foldl_cons, ih]

lemma deriveShape_eq_map (dims : List DimDecl) :
    deriveShape dims = dims.map dimEntry := by
  simpa using foldl_append_map dimEntry dims []

lemma makeTestShape_eq_map (s : List PyVal) :
    makeTestShape s = s.map dynamicToOne := by
  simpa using foldl_append_map dynamicToOne s []

/-! ### C1 -/

/-- C1 counterexample: a dimension declared with fixed size `0` (and no
symbolic name) is mapped by the code to the string `"unknown"`, not to the
integer `0` as the claim ("including 0") asserts, because the Python guard
`if dim.dim_value:` is falsy at `0`. -/
theorem deriveShape_zero_dim_counterexample :
    deriveShape [DimDecl.value 0] = [PyVal.str "unknown"] ∧
    deriveShape [DimDecl.value 0] ≠ [PyVal.int 0] := by
  constructor <;> decide

/-- C1 (amended): the derived static shape has one element per declared
dimension, in order, where each element is the fixed size when the declared
fixed size is nonzero, else the symbolic name when it is nonempty, else the
literal string `"unknown"`; a declared fixed size of `0` therefore falls
through to the later cases. -/
theorem deriveShape_spec (dims : List DimDecl) :
    (deriveShape dims).length = dims.length ∧
    ∀ (k : Nat) (d : DimDecl), dims[k]? = some d →
      (deriveShape dims)[k]? = some
        (if d.dimValue ≠ 0 then PyVal.int d.dimValue
         else if d.dimParam ≠ "" then PyVal.str d.dimParam
         else PyVal.str "unknown") := by
  rw [deriveShape_eq_map]
  refine ⟨by simp, ?_⟩
  intro k d hk
  simp [List.getElem?_map, hk, dimEntry]

/-- C1 witness: `deriveShape_spec` evaluated on the concrete dimension list
`[value 5, param "N", unset]`. -/
theorem deriveShape_spec_witness :
    ([DimDecl.value 5, DimDecl.param "N", DimDecl.unset][1]? =
      some (DimDecl.param "N")) ∧
    (deriveShape [DimDecl.value 5, DimDecl.param "N", DimDecl.unset])[1]? =
      some (PyVal.str "N") := by
  refine ⟨by decide, ?_⟩
  have h := (deriveShape_spec
    [DimDecl.value 5, DimDecl.param "N", DimDecl.unset]).2 1
    (DimDecl.param "N") (by decide)
  rw [h]; decide

/-! ### C2 -/

/-- C2: the concrete test shape has the same length as the first runtime
input's shape, and elementwise replaces exactly the dynamic dimensions — a
string (symbolic name) or the sentinel `-1` — with `1`, keeping every other
fixed dimension unchanged. -/
theorem makeTestShape_spec (s : List PyVal) :
    (makeTestShape s).length = s.length ∧
    ∀ (k : Nat) (d : PyVal), s[k]? = some d →
      (makeTestShape s)[k]? = some
        (match d with
         | PyVal.str _ => 1
         | PyVal.int n => if n = -1 then 1 else n) := by
  rw [makeTestShape_eq_map]
  refine ⟨by simp, ?_⟩
  intro k d hk
  simp only [List.getElem?_map, hk, Option.map_some]
  cases d <;> simp [dynamicToOne]

/-- C2 witness: `makeTestShape_spec` evaluated on the runtime shape
`[-1, 3, "H", 224]`: the sentinel and the symbolic name become `1`, the
fixed dimensions stay. -/
theorem makeTestShape_spec_witness :
    (makeTestShape [PyVal.int (-1), PyVal.int 3, PyVal.str "H",
      PyVal.int 224]).length = 4 ∧
    ([PyVal.int (-1), PyVal.int 3, PyVal.str "H", PyVal.int 224][0]? =
      some (PyVal.int (-1))) ∧
    (makeTestShape [PyVal.int (-1), PyVal.int 3, PyVal.str "H",
      PyVal.int 224])[0]? = some 1 ∧
    (makeTestShape [PyVal.int (-1), PyVal.int 3, PyVal.str "H",
      PyVal.int 224])[3]? = some 224 := by
  refine ⟨?_, by decide, ?_, ?_⟩
  · exact (makeTestShape_spec _).1
  · have h := (makeTestShape_spec
      [PyVal.int (-1), PyVal.int 3, PyVal.str "H", PyVal.int 224]).2 0
      (PyVal.int (-1)) (by decide)
    rw [h]; decide
  · have h := (makeTestShape_spec
      [PyVal.int (-1), PyVal.int 3, PyVal.str "H", PyVal.int 224]).2 3
      (PyVal.int 224) (by decide)
    rw [h]; decide

/-! ### C3 -/

/-- C3: the layout heuristic produces a label exactly when the test shape
has 4 dimensions — `"NCHW"` when index 1 is `3`, else `"NHWC"` when index 3
is `3`, else `"Unknown"` — and produces no label for any other length. -/
theorem tensorFormat_spec (s : List Int) :
    (s.length = 4 →
      tensorFormat s = some
        (if s.getD 1 0 = 3 then "NCHW"
         else if s.getD 3 0 = 3 then "NHWC" else "Unknown")) ∧
    (s.length ≠ 4 → tensorFormat s = none) := by
  refine ⟨fun h => ?_, fun h => ?_⟩
  · simp only [tensorFormat, if_pos h]
    split_ifs <;> rfl
  · simp only [tensorFormat, if_neg h]

/-- C3 witness: `tensorFormat_spec` at the shapes `[1,3,224,224]` (NCHW),
`[1,224,224,3]` (NHWC), `[2,5,7,9]` (Unknown) and the 2-dimensional
`[1,1000]` (no label). -/
theorem tensorFormat_spec_witness :
    tensorFormat [1, 3, 224, 224] = some "NCHW" ∧
    tensorFormat [1, 224, 224, 3] = some "NHWC" ∧
    tensorFormat [2, 5, 7, 9] = some "Unknown" ∧
    tensorFormat [1, 1000] = none := by
  refine ⟨?_, ?_, ?_, ?_⟩
  · have h := (tensorFormat_spec [1, 3, 224, 224]).1 (by decide)
    rw [h]; decide
  · have h := (tensorFormat_spec [1, 224, 224, 3]).1 (by decide)
    rw [h]; decide
  · have h := (tensorFormat_spec [2, 5, 7, 9]).1 (by decide)
    rw [h]; decide
  · exact (tensorFormat_spec [1, 1000]).2 (by decide)

/-! ### C8 -/

/-- C8: on a 4-dimensional test shape whose index-1 entry is `3`, the
heuristic answers `"NCHW"` regardless of the index-3 entry: the
channel-first branch takes precedence over the `"NHWC"` branch. -/
theorem tensorFormat_nchw_precedence (s : List Int)
    (h4 : s.length = 4) (h1 : s.getD 1 0 = 3) :
    tensorFormat s = some "NCHW" := by
  simp only [tensorFormat, if_pos h4, if_pos h1]

/-- C8 witness: the shape `[1,3,224,3]` has `3` at both index 1 and index 3
and is labelled `"NCHW"`. -/
theorem tensorFormat_nchw_precedence_witness :
    tensorFormat [1, 3, 224, 3] = some "NCHW" :=
  tensorFormat_nchw_precedence [1, 3, 224, 3] (by decide) (by decide)

/-! ### Concrete sample data for witnesses -/

/-- A first runtime input with a dynamic batch dimension. -/
def sampleFirst : RuntimeMeta :=
  ⟨"input", [PyVal.int (-1), PyVal.int 3, PyVal.int 224, PyVal.int 224],
   "tensor(float)"⟩

/-- A session with one input and one output. -/
def sampleSession : SessionData :=
  ⟨[sampleFirst], [⟨"output", [PyVal.str "batch", PyVal.int 512],
    "tensor(float)"⟩]⟩

/-- A loaded model with one declared input and a scalar declared output. -/
def sampleModel : ModelData :=
  ⟨"pytorch", "2.0", 1, "",
   [⟨"input", "tensor elem_type 1",
     [DimDecl.param "batch", DimDecl.value 3, DimDecl.value 224,
      DimDecl.value 224]⟩],
   [⟨"output", "tensor elem_type 1", []⟩]⟩

/-- A successful inference result. -/
def sampleStats : RunStats := ⟨[1, 512], "float32"⟩

/-- An environment in which every external call succeeds. -/
def okEnv : Env :=
  { pathExists := true
    loadResult := Except.ok sampleModel
    sessionResult := Except.ok sampleSession
    rand := fun _ k => [(k : ℚ)]
    runResult := fun _ => Except.ok sampleStats }

/-- An environment whose path does not exist. -/
def missingEnv : Env :=
  { pathExists := false
    loadResult := Except.error "unused"
    sessionResult := Except.error "unused"
    rand := fun _ _ => []
    runResult := fun _ => Except.error "unused" }

/-- Like `okEnv`, but inference succeeds only on the dummy input of the
main synthetic inference (the sample drawn at call site 0); every
normalization probe input fails. -/
def probeFailEnv : Env :=
  { okEnv with
    runResult := fun x =>
      if x = [(0 : ℚ)] then Except.ok sampleStats
      else Except.error "bad input" }

/-! ### Helper lemmas about the analysis trace -/

/-- `true` on `Except.ok`, `false` on `Except.error`. -/
def exceptOk : Except String Unit → Bool
  | Except.ok _ => true
  | Except.error _ => false

lemma analyze_snd_eq (path : String) (env : Env) :
    (analyze_onnx_model path env).2 =
      (env.pathExists && exceptOk (tryBody env).2) := by
  unfold analyze_onnx_model
  rcases htb : tryBody env with ⟨evs, r⟩
  cases h : env.pathExists <;> cases r <;> simp [htb, exceptOk]

lemma tryBody_snd_ok (env : Env) (model : ModelData) (session : SessionData)
    (first : RuntimeMeta) (rest : List RuntimeMeta) (st : RunStats)
    (hl : env.loadResult = Except.ok model)
    (hs : env.sessionResult = Except.ok session)
    (hin : session.inputs = first :: rest)
    (hr : env.runResult (env.rand (makeTestShape first.shape) 0) =
      Except.ok st) :
    (tryBody env).2 = Except.ok () := by
  unfold tryBody
  simp only [hl, hs, hin, hr]
  split <;> rfl

lemma tryBody_probe_suffix (env : Env) (model : ModelData)
    (session : SessionData) (first : RuntimeMeta) (rest : List RuntimeMeta)
    (st : RunStats)
    (hl : env.loadResult = Except.ok model)
    (hs : env.sessionResult = Except.ok session)
    (hin : session.inputs = first :: rest)
    (hr : env.runResult (env.rand (makeTestShape first.shape) 0) =
      Except.ok st)
    (h4 : (makeTestShape first.shape).length = 4) :
    ∃ pre, (tryBody env).1 =
      pre ++ probeEvents env (makeTestShape first.shape) := by
  unfold tryBody
  simp only [hl, hs, hin, hr]
  rw [if_pos h4]
  exact ⟨_, rfl⟩

/-! ### C4 -/

/-- C4: the inspector never propagates an exception — its outcome is the
boolean `True` exactly when the path exists and the whole guarded body runs
to `return True`, and `False` exactly when the file is missing or some step
of the body (parse, session construction, indexing, inference) raises; the
catch-all `except` converts every such exception into the `False` return. -/
theorem analyze_boolean_outcome (path : String) (env : Env) :
    ((analyze_onnx_model path env).2 = true ↔
      env.pathExists = true ∧ (tryBody env).2 = Except.ok ()) ∧
    ((analyze_onnx_model path env).2 = false ↔
      env.pathExists = false ∨ ∃ msg, (tryBody env).2 = Except.error msg) := by
  have h := analyze_snd_eq path env
  rcases htb : tryBody env with ⟨evs, r⟩
  rw [htb] at h
  cases hp : env.pathExists <;> rw [hp] at h <;>
    cases r with
    | ok u => cases u; simp [h, htb, exceptOk]
    | error msg => simp [h, htb, exceptOk]

/-! ### C5 -/

/-- C5: when the path does not resolve to an existing file, the inspector
returns `False`, the trace is exactly the header line followed by the
not-found error line, and in particular no library call (model load,
session construction, inference) is ever attempted. -/
theorem analyze_missing_file (path : String) (env : Env)
    (h : env.pathExists = false) :
    (analyze_onnx_model path env).2 = false ∧
    (analyze_onnx_model path env).1 =
      [Event.out (Line.analyzingHeader path),
       Event.out (Line.errorNotFound path)] ∧
    ∀ e ∈ (analyze_onnx_model path env).1, isLibraryCall e = false := by
  have htr : analyze_onnx_model path env =
      ([Event.out (Line.analyzingHeader path),
        Event.out (Line.errorNotFound path)], false) := by
    unfold analyze_onnx_model
    rw [h]
    rfl
  refine ⟨by rw [htr], by rw [htr], ?_⟩
  intro e he
  rw [htr] at he
  simp only [List.mem_cons, List.not_mem_nil, or_false] at he
  rcases he with rfl | rfl <;> rfl

/-- C5 witness: `analyze_missing_file` at the concrete environment
`missingEnv` and the path `"missing.onnx"`. -/
theorem analyze_missing_file_witness :
    missingEnv.pathExists = false ∧
    (analyze_onnx_model "missing.onnx" missingEnv).2 = false := by
  have h := analyze_missing_file "missing.onnx" missingEnv rfl
  exact ⟨rfl, h.1⟩

/-! ### C9 -/

/-- C9: the three normalization probes never change the inspector's boolean
result — whenever the path exists, the load, the session construction, the
first-input lookup and the main synthetic inference all succeed, the
inspector returns `True`, with no assumption at all on the outcomes of the
probe inferences (so also when all three fail). -/
theorem analyze_true_despite_probe_failures (path : String) (env : Env)
    (model : ModelData) (session : SessionData) (first : RuntimeMeta)
    (rest : List RuntimeMeta) (st : RunStats)
    (hp : env.pathExists = true)
    (hl : env.loadResult = Except.ok model)
    (hs : env.sessionResult = Except.ok session)
    (hin : session.inputs = first :: rest)
    (hr : env.runResult (env.rand (makeTestShape first.shape) 0) =
      Except.ok st) :
    (analyze_onnx_model path env).2 = true := by
  rw [analyze_snd_eq, hp,
    tryBody_snd_ok env model session first rest st hl hs hin hr]
  rfl

/-- C9 witness: in `probeFailEnv` every probe input fails inference, yet
`analyze_true_despite_probe_failures` applies and the result is `True`. -/
theorem analyze_true_despite_probe_failures_witness :
    (analyze_onnx_model "model.onnx" probeFailEnv).2 = true ∧
    probeFailEnv.runResult
      (probeFailEnv.rand (makeTestShape sampleFirst.shape) 1) =
      Except.error "bad input" := by
  refine ⟨?_, by rfl⟩
  exact analyze_true_despite_probe_failures "model.onnx" probeFailEnv
    sampleModel sampleSession sampleFirst [] sampleStats rfl rfl rfl rfl rfl

/-! ### C6 -/

/-- C6: when the concrete test shape has exactly 4 dimensions (and the
analysis reaches the probing block), the trace ends with the probe block;
that block consists of exactly the three normalization probes over the test
shape, in order — (a) a uniform sample, (b) a uniform sample remapped via
`(x - 0.5) * 2`, (c) a uniform sample remapped via `(x - 0.485) / 0.229` —
and each probe independently attempts its inference and prints one report
line, a success line or a failure line with the caught message, regardless
of the other probes' outcomes. -/
theorem probe_block_structure (path : String) (env : Env)
    (model : ModelData) (session : SessionData) (first : RuntimeMeta)
    (rest : List RuntimeMeta) (st : RunStats)
    (hp : env.pathExists = true)
    (hl : env.loadResult = Except.ok model)
    (hs : env.sessionResult = Except.ok session)
    (hin : session.inputs = first :: rest)
    (hr : env.runResult (env.rand (makeTestShape first.shape) 0) =
      Except.ok st)
    (h4 : (makeTestShape first.shape).length = 4) :
    (∃ pre, (analyze_onnx_model path env).1 =
      pre ++ probeEvents env (makeTestShape first.shape)) ∧
    probeEvents env (makeTestShape first.shape) =
      probeReport env ("0-1 normalization",
        env.rand (makeTestShape first.shape) 1) ++
      probeReport env ("[-1,1] normalization",
        (env.rand (makeTestShape first.shape) 2).map
          (fun x => (x - 1/2) * 2)) ++
      probeReport env ("ImageNet normalization",
        (env.rand (makeTestShape first.shape) 3).map
          (fun x => (x - 97/200) / (229/1000))) ∧
    ∀ probe input, probeReport env (probe, input) =
      [Event.callRun,
       Event.out (match env.runResult input with
         | Except.ok _ => Line.probeSuccess probe
         | Except.error msg => Line.probeFailure probe msg)] := by
  refine ⟨?_, ?_, ?_⟩
  · obtain ⟨pre, hpre⟩ :=
      tryBody_probe_suffix env model session first rest st hl hs hin hr h4
    have hok := tryBody_snd_ok env model session first rest st hl hs hin hr
    unfold analyze_onnx_model
    rw [hp]
    rcases htb : tryBody env with ⟨evs, r⟩
    rw [htb] at hpre hok
    simp only at hpre hok
    subst hok
    refine ⟨[Event.out (Line.analyzingHeader path)] ++ pre, ?_⟩
    simp [hpre, List.append_assoc]
  · simp [probeEvents, normalizedInputs, List.append_assoc]
  · intro probe input
    rcases h : env.runResult input with msg | stp <;> simp [probeReport, h]

/-- C6 witness: `probe_block_structure` at `probeFailEnv`, whose
4-dimensional test shape comes from the runtime shape
`[-1, 3, 224, 224]`; in it all three probe inferences fail and each is
still reported. -/
theorem probe_block_structure_witness :
    (∃ pre, (analyze_onnx_model "model.onnx" probeFailEnv).1 =
      pre ++ probeEvents probeFailEnv (makeTestShape sampleFirst.shape)) ∧
    probeEvents probeFailEnv (makeTestShape sampleFirst.shape) =
      probeReport probeFailEnv ("0-1 normalization",
        probeFailEnv.rand (makeTestShape sampleFirst.shape) 1) ++
      probeReport probeFailEnv ("[-1,1] normalization",
        (probeFailEnv.rand (makeTestShape sampleFirst.shape) 2).map
          (fun x => (x - 1/2) * 2)) ++
      probeReport probeFailEnv ("ImageNet normalization",
        (probeFailEnv.rand (makeTestShape sampleFirst.shape) 3).map
          (fun x => (x - 97/200) / (229/1000))) ∧
    ∀ probe input, probeReport probeFailEnv (probe, input) =
      [Event.callRun,
       Event.out (match probeFailEnv.runResult input with
         | Except.ok _ => Line.probeSuccess probe
         | Except.error msg => Line.probeFailure probe msg)] :=
  probe_block_structure "model.onnx" probeFailEnv sampleModel sampleSession
    sampleFirst [] sampleStats rfl rfl rfl rfl rfl (by rfl)

/-! ### C10 -/

/-- C10: for a declared tensor whose dimension list is empty (a scalar
tensor), the per-tensor report is exactly the index line, the name line,
the type line and a blank line — no `Shape:` line is produced. -/
theorem tensorEvents1_scalar (b : Bool) (i : Nat) (t : TensorInfo)
    (h : t.dims = []) :
    tensorEvents1 b i t =
      [Event.out (Line.tensorIndex b i), Event.out (Line.tensorName t.name),
       Event.out (Line.tensorType t.typeStr), Event.out Line.blank] ∧
    ∀ s, Event.out (Line.tensorShape s) ∉ tensorEvents1 b i t := by
  have h1 : tensorEvents1 b i t =
      [Event.out (Line.tensorIndex b i), Event.out (Line.tensorName t.name),
       Event.out (Line.tensorType t.typeStr), Event.out Line.blank] := by
    simp [tensorEvents1, h]
  refine ⟨h1, ?_⟩
  intro s
  rw [h1]
  simp

/-- C10 witness: `tensorEvents1_scalar` at the scalar declared output of
`sampleModel`. -/
theorem tensorEvents1_scalar_witness :
    tensorEvents1 false 0 ⟨"output", "tensor elem_type 1", []⟩ =
      [Event.out (Line.tensorIndex false 0),
       Event.out (Line.tensorName "output"),
       Event.out (Line.tensorType "tensor elem_type 1"),
       Event.out Line.blank] :=
  (tensorEvents1_scalar false 0 ⟨"output", "tensor elem_type 1", []⟩ rfl).1

/-! ### C7 -/

lemma specMainBlocks_eq (n : Nat) (l : List (String × Env)) :
    ∀ k : Nat, k + l.length = n →
      ((List.enumFrom k l).map (mainBlock n)).flatten = specMainBlocks n k l := by
  induction l with
  | nil => intro k _; simp [specMainBlocks]
  | cons m rest ih =>
    intro k hk
    have hsep : (if k < n - 1 then [Event.out Line.separatorLine] else []) =
        (if rest.isEmpty then [] else [Event.out Line.separatorLine]) := by
      cases rest with
      | nil =>
        simp only [List.length_cons, List.length_nil] at hk
        simp only [List.isEmpty_nil, if_pos trivial, ite_eq_right_iff]
        intro hlt
        omega
      | cons a b =>
        simp only [List.length_cons] at hk
        have : k < n - 1 := by omega
        simp [this]
    simp only [List.enumFrom, List.map_cons, List.flatten_cons]
    rw [ih (k + 1) (by simp only [List.length_cons] at hk; omega)]
    simp only [specMainBlocks, mainBlock]
    rw [hsep]
    simp [List.append_assoc]

/-- C7: with exactly one model path the inspector runs bare — its trace is
the whole output, with no progress, success, failure or separator banner;
with two or more paths the output is, per model in input order, a 1-based
`Analyzing model i/N: basename` banner, the inspector's own output, a
success or failure banner chosen by the inspector's boolean result, and a
separator exactly between consecutive models (none after the last), as
captured by the claim-derived `specMainBlocks`. -/
theorem main_run_spec (models : List (String × Env)) :
    (∀ m, models = [m] →
      main_run models = (analyze_onnx_model m.1 m.2).1) ∧
    (2 ≤ models.length →
      main_run models = specMainBlocks models.length 0 models) := by
  constructor
  · rintro m rfl
    rfl
  · intro h2
    match models, h2 with
    | m1 :: m2 :: rest, _ =>
      have hdef : main_run (m1 :: m2 :: rest) =
          ((List.enumFrom 0 (m1 :: m2 :: rest)).map
            (mainBlock (m1 :: m2 :: rest).length)).flatten := rfl
      rw [hdef]
      exact specMainBlocks_eq _ _ 0 (by simp)

/-- C7 witness: `main_run_spec` at a concrete two-model batch (a missing
file followed by a fully analyzable model). -/
theorem main_run_spec_witness :
    2 ≤ ([("a.onnx", missingEnv), ("models/b.onnx", okEnv)] :
      List (String × Env)).length ∧
    main_run [("a.onnx", missingEnv), ("models/b.onnx", okEnv)] =
      specMainBlocks 2 0 [("a.onnx", missingEnv), ("models/b.onnx", okEnv)] :=
  ⟨by decide, (main_run_spec _).2 (by decide)⟩

end OnnxAnalyzer
